import Mathlib

/-!
Shallow embedding of `src/nanobrowser/lib/agent/tools/get_dom_with_content_type.py`.

The file defines a single tool, `get_dom_with_content_type`, which

  1. emits an `ACT_START` event on the event bus,
  2. resolves the active page (raising `ValueError` when none exists),
  3. waits for a non-loading DOM state,
  4. dispatches on `content_type` to one of three extractors
     (`all_fields`, `input_fields`, `text_only`), raising `ValueError`
     for anything else,
  5. emits an `ACT_OK` event and returns the extracted data.

The `text_only` extractor runs a JavaScript snippet inside the page
(`get_filtered_text_content`) that temporarily hides elements matching
`#agente-overlay`, reads the page text and image alt texts, restores the
visibilities, and returns the concatenated string; the tool then writes
that string to `text_only_dom.txt` in the run's log directory.

The embedding models the call as a pure function from an agent context
and a file-system state to an outcome recording the result (or raised
error), the emitted events in order, whether the readiness wait ran, the
arguments of calls to the external accessibility routine, the resulting
file system, and the page state after the call.
-/

namespace Nanobrowser

/-- Execution states of the lifecycle events this tool emits
(`ExecutionState.ACT_START`, `ExecutionState.ACT_OK`). -/
inductive ExecutionState where
  | ACT_START
  | ACT_OK
deriving DecidableEq, Repr

/-- The actor attached to the events (`Actors.NAVIGATOR` in the source). -/
inductive Actor where
  | NAVIGATOR
deriving DecidableEq, Repr

/-- Payload of an emitted event (`EventData` in the source). -/
structure EventData where
  task_id : String
  step : Nat
  tool_round : Nat
  tool : String
  details : String
deriving DecidableEq, Repr

/-- An event as created by `Event.create(state, actor, data)`. -/
structure Event where
  state : ExecutionState
  actor : Actor
  data : EventData
deriving DecidableEq, Repr

/-- State of the active browser page, restricted to what the
`text_only` extraction script observes and mutates:
`style.visibility` of each element matching `#agente-overlay` (in
document order), `document.body.innerText` (absent body modelled as
`none`), `document.documentElement.innerText`, and the `alt` attribute
of every `img` element in document order. -/
structure PageState where
  overlayVisibilities : List String
  bodyInnerText : Option String
  documentElementInnerText : Option String
  imageAlts : List String
deriving DecidableEq, Repr

/-- JavaScript `a || b` for `a` a possibly-absent string: an absent or
empty (falsy) string falls through to `b`. -/
def jsFalsyOrElse : Option String → String → String
  | some s, b => if s = "" then b else s
  | none, b => b

/-- The fixed label prefixed to the joined alt texts in the page script. -/
def altTextsLabel : String := "Other Alt Texts in the page: "

/-- Embedding of `get_filtered_text_content(page)`: runs the evaluated
script and returns the page state after the script together with the
returned string.  The script hides the `#agente-overlay` elements
(recording each original `style.visibility`), reads
`document?.body?.innerText || document?.documentElement?.innerText || ""`,
joins all image alt texts with single spaces behind `altTextsLabel`,
restores each recorded element to its recorded visibility, and returns
the body text, a space, and the alt-text summary concatenated. -/
def get_filtered_text_content (p : PageState) : PageState × String :=
  let originalStyles := p.overlayVisibilities
  let p1 : PageState := { p with overlayVisibilities := p.overlayVisibilities.map (fun _ => "hidden") }
  let textContent := jsFalsyOrElse p1.bodyInnerText (jsFalsyOrElse p1.documentElementInnerText "")
  let altTexts := altTextsLabel ++ String.intercalate " " p1.imageAlts
  let restored := List.zipWith (fun _cur orig => orig) p1.overlayVisibilities originalStyles
  let p2 : PageState := { p1 with overlayVisibilities := restored }
  (p2, textContent ++ " " ++ altTexts)

/-- Write (create or overwrite) a file in an association-list file
system, as `open(path, 'w')` followed by a full write does. -/
def setFile : List (String × String) → String → String → List (String × String)
  | [], path, content => [(path, content)]
  | (q, c) :: rest, path, content =>
    if q = path then (path, content) :: rest else (q, c) :: setFile rest path content

/-- Look up a file's content in the association-list file system. -/
def getFile : List (String × String) → String → Option String
  | [], _ => none
  | (q, c) :: rest, path => if q = path then some c else getFile rest path

/-- Behaviour of the environment on the next `open(path, 'w')` plus
`f.write(text)`: the write succeeds; `open` itself raises (the file is
never touched); or `open` succeeds — truncating the file — and
`f.write` then raises, having flushed only `flushed` of the text. -/
inductive WriteBehavior where
  | succeeds
  | openRaises
  | writeRaises (flushed : String)
deriving DecidableEq, Repr

/-- File-system state seen by the call: the stored files, plus the
environment's behaviour on the next open-and-write of a file (outside
the program's control). -/
structure FS where
  files : List (String × String)
  nextWrite : WriteBehavior
deriving DecidableEq, Repr

/-- The files after an attempted `open(path, 'w')` / `f.write(text)`,
for each environment behaviour: the full text stored on success,
untouched files when `open` raises, and the file truncated down to the
flushed part when `f.write` raises after `open` has truncated it. -/
def filesAfterWrite (files : List (String × String)) (path text : String) :
    WriteBehavior → List (String × String)
  | WriteBehavior.succeeds => setFile files path text
  | WriteBehavior.openRaises => files
  | WriteBehavior.writeRaises flushed => setFile files path flushed

/-- `os.path.join` for the two-component paths used here. -/
def pathJoin (a b : String) : String := a ++ "/" ++ b

/-- Errors the call can raise: the two `ValueError`s of the source and
a propagated `OSError` from the debug-log write. -/
inductive ToolError where
  | noActivePage
  | unsupportedContentType (content_type : String)
  | logWriteFailure
deriving DecidableEq, Repr

/-- The Python return type `dict[str, Any] | str | None`, with the
structured dictionaries abstracted by a type parameter. -/
inductive ToolResult (α : Type) where
  | obj (d : α)
  | str (s : String)
  | none
deriving DecidableEq, Repr

/-- Injection of the external routine's `dict | None` return value into
the tool's return type, as `return extracted_data` performs. -/
def optionToResult {α : Type} : Option α → ToolResult α
  | some d => ToolResult.obj d
  | Option.none => ToolResult.none

/-- The agent context as used by the call: event identifiers, the
resolved active page (`browser_context.get_current_page()`, `none` when
no page exists), the external accessibility routine
`do_get_accessibility_info` already bound to the page and log dir and
keyed by its `only_input_fields` argument, and the log directory path
(`context.path_manager.logs`). -/
structure AgentContext (α : Type) where
  task_id : String
  step : Nat
  tool_round : Nat
  page : Option PageState
  do_get_accessibility_info : Bool → Option α
  logs : String

/-- Everything observable about one invocation: the returned value or
raised error, the events emitted to the bus in order, whether
`wait_for_non_loading_dom_state` was invoked, the
`only_input_fields` argument of each call to
`do_get_accessibility_info` in order, the file system after the call,
and the page state after the call. -/
structure CallOutcome (α : Type) where
  result : Except ToolError (ToolResult α)
  events : List Event
  waited : Bool
  accCalls : List Bool
  fs : FS
  pageAfter : Option PageState

/-- Build the event `Event.create(state, Actors.NAVIGATOR, EventData(...))`
emitted by this tool. -/
def mkToolEvent {α : Type} (st : ExecutionState) (ctx : AgentContext α) (details : String) : Event :=
  { state := st
    actor := Actor.NAVIGATOR
    data := { task_id := ctx.task_id, step := ctx.step, tool_round := ctx.tool_round,
              tool := "get_dom_with_content_type", details := details } }

/-- The `ACT_START` event emitted at the top of the call, with the
details string built from the requested content type. -/
def startEvent {α : Type} (ctx : AgentContext α) (content_type : String) : Event :=
  mkToolEvent ExecutionState.ACT_START ctx
    ("Executing Get DOM Command based on content_type: " ++ content_type)

/-- The `ACT_OK` event emitted at the end of a successful call, with the
branch's `user_success_message` as details. -/
def okEvent {α : Type} (ctx : AgentContext α) (details : String) : Event :=
  mkToolEvent ExecutionState.ACT_OK ctx details

/-- The advisory string returned when `input_fields` extraction finds
nothing. -/
def advisoryMsg : String :=
  "Could not fetch input fields. Please consider trying with content_type all_fields."

/-- Embedding of `get_dom_with_content_type(context, content_type)`.

Mirrors the source line by line: emit `ACT_START`; resolve the current
page and raise `ValueError('No active page found. ...')` when it is
`None`; call `wait_for_non_loading_dom_state(page, 2000)`; dispatch on
`content_type` (`all_fields` → accessibility routine with
`only_input_fields=False`; `input_fields` → routine with
`only_input_fields=True`, returning the advisory string immediately
when it yields `None`; `text_only` → `get_filtered_text_content`
followed by the write of `text_only_dom.txt`, a failing write
propagating as a raised `OSError`; anything else → raise
`ValueError(f"Unsupported content_type: ...")`); finally emit `ACT_OK`
and return the extracted data. -/
def get_dom_with_content_type {α : Type} (ctx : AgentContext α) (fs : FS)
    (content_type : String) : CallOutcome α :=
  match ctx.page with
  | Option.none =>
    { result := Except.error ToolError.noActivePage
      events := [startEvent ctx content_type], waited := false, accCalls := []
      fs := fs, pageAfter := Option.none }
  | some page =>
    if content_type = "all_fields" then
      let extracted_data := ctx.do_get_accessibility_info false
      { result := Except.ok (optionToResult extracted_data)
        events := [startEvent ctx content_type, okEvent ctx "Fetched all the fields in the DOM"]
        waited := true, accCalls := [false], fs := fs, pageAfter := some page }
    else if content_type = "input_fields" then
      match ctx.do_get_accessibility_info true with
      | Option.none =>
        { result := Except.ok (ToolResult.str advisoryMsg)
          events := [startEvent ctx content_type], waited := true, accCalls := [true]
          fs := fs, pageAfter := some page }
      | some d =>
        { result := Except.ok (ToolResult.obj d)
          events := [startEvent ctx content_type, okEvent ctx "Fetched only input fields in the DOM"]
          waited := true, accCalls := [true], fs := fs, pageAfter := some page }
    else if content_type = "text_only" then
      let extraction := get_filtered_text_content page
      match fs.nextWrite with
      | WriteBehavior.succeeds =>
        { result := Except.ok (ToolResult.str extraction.2)
          events := [startEvent ctx content_type, okEvent ctx "Fetched the text content of the DOM"]
          waited := true, accCalls := []
          fs := { fs with files := setFile fs.files (pathJoin ctx.logs "text_only_dom.txt") extraction.2 }
          pageAfter := some extraction.1 }
      | WriteBehavior.openRaises =>
        { result := Except.error ToolError.logWriteFailure
          events := [startEvent ctx content_type], waited := true, accCalls := []
          fs := fs, pageAfter := some extraction.1 }
      | WriteBehavior.writeRaises flushed =>
        { result := Except.error ToolError.logWriteFailure
          events := [startEvent ctx content_type], waited := true, accCalls := []
          fs := { fs with files := setFile fs.files (pathJoin ctx.logs "text_only_dom.txt") flushed }
          pageAfter := some extraction.1 }
    else
      { result := Except.error (ToolError.unsupportedContentType content_type)
        events := [startEvent ctx content_type], waited := true, accCalls := []
        fs := fs, pageAfter := some page }

/-- One round of the repeated-call scenario: invoke the tool with
`text_only` on the current context and file system, and carry the
resulting page state and file system into the next round. -/
def textOnlyChainStep {α : Type} (s : AgentContext α × FS) : AgentContext α × FS :=
  let o := get_dom_with_content_type s.1 s.2 "text_only"
  ({ s.1 with page := o.pageAfter }, o.fs)

/-- An empty file system whose writes succeed. -/
def fs0 : FS := { files := [], nextWrite := WriteBehavior.succeeds }

/-- A file system holding a previously written `logs/text_only_dom.txt`
whose next `open` succeeds — truncating that file — but whose `f.write`
then raises having flushed nothing. -/
def fsFail : FS :=
  { files := [(pathJoin "logs" "text_only_dom.txt", "old content")]
    nextWrite := WriteBehavior.writeRaises "" }

/-- A page with body text `"Hello"`, one visible `#agente-overlay`
element, and one image with alt `"Logo"`. -/
def samplePage : PageState :=
  { overlayVisibilities := ["visible"], bodyInnerText := some "Hello"
    documentElementInnerText := Option.none, imageAlts := ["Logo"] }

/-- A page with no body text, no root-element text and no images. -/
def emptyPage : PageState :=
  { overlayVisibilities := [], bodyInnerText := Option.none
    documentElementInnerText := Option.none, imageAlts := [] }

/-- A context whose browser has no active page. -/
def noPageCtx : AgentContext Nat :=
  { task_id := "task-1", step := 0, tool_round := 0, page := Option.none
    do_get_accessibility_info := fun _ => Option.none, logs := "logs" }

/-- A context on `samplePage` whose accessibility routine returns the
null sentinel in both modes. -/
def sampleCtx : AgentContext Nat :=
  { task_id := "task-1", step := 0, tool_round := 0, page := some samplePage
    do_get_accessibility_info := fun _ => Option.none, logs := "logs" }

/-- A context on `samplePage` whose accessibility routine returns a
structured object (stand-in value `42`) in both modes. -/
def sampleCtxSome : AgentContext Nat :=
  { task_id := "task-1", step := 0, tool_round := 0, page := some samplePage
    do_get_accessibility_info := fun _ => some 42, logs := "logs" }

/-- A context on `emptyPage` whose accessibility routine returns the
null sentinel in both modes. -/
def emptyPageCtx : AgentContext Nat :=
  { task_id := "task-1", step := 0, tool_round := 0, page := some emptyPage
    do_get_accessibility_info := fun _ => Option.none, logs := "logs" }

/-! ### Helper lemmas -/

/-- Zipping a same-length constant list against the original, keeping
the original entries, recovers the original list. -/
theorem zipWith_right_replicate {β γ : Type} (c : γ) (vs : List β) :
    List.zipWith (fun _cur orig => orig) (List.replicate vs.length c) vs = vs := by
  induction vs with
  | nil => rfl
  | cons a t ih => simpa [List.replicate] using ih

/-- The page state after the `text_only` extraction script equals the
page state before it: every temporarily hidden overlay element is
restored to its recorded visibility and nothing else is mutated. -/
theorem get_filtered_text_content_fst (p : PageState) :
    (get_filtered_text_content p).1 = p := by
  cases p with
  | mk ov b d im => simp [get_filtered_text_content, zipWith_right_replicate]

/-- Reading a file just written returns the written content. -/
theorem getFile_setFile (files : List (String × String)) (path content : String) :
    getFile (setFile files path content) path = some content := by
  induction files with
  | nil => simp [setFile, getFile]
  | cons hd tl ih =>
    obtain ⟨q, c⟩ := hd
    by_cases hq : q = path
    · simp [setFile, getFile, hq]
    · simp [setFile, getFile, hq, ih]

/-- Overwriting a file with the same content twice equals writing it
once: the `'w'`-mode write replaces, it does not accumulate. -/
theorem setFile_idem (files : List (String × String)) (path content : String) :
    setFile (setFile files path content) path content = setFile files path content := by
  induction files with
  | nil => simp [setFile]
  | cons hd tl ih =>
    obtain ⟨q, c⟩ := hd
    by_cases hq : q = path
    · simp [setFile, hq]
    · simp [setFile, hq, ih]

/-- Replacing a context's page field by its own value is the identity. -/
theorem ctx_update_page_self {α : Type} (ctx : AgentContext α) :
    { ctx with page := ctx.page } = ctx := rfl

/-- Evaluation of the call when no active page exists. -/
theorem call_no_page {α : Type} (ctx : AgentContext α) (fs : FS) (ct : String)
    (h : ctx.page = Option.none) :
    get_dom_with_content_type ctx fs ct =
      { result := Except.error ToolError.noActivePage
        events := [startEvent ctx ct], waited := false, accCalls := []
        fs := fs, pageAfter := Option.none } := by
  simp [get_dom_with_content_type, h]

/-- Evaluation of the call on the `all_fields` branch. -/
theorem call_all_fields {α : Type} (ctx : AgentContext α) (fs : FS) (p : PageState)
    (h : ctx.page = some p) :
    get_dom_with_content_type ctx fs "all_fields" =
      { result := Except.ok (optionToResult (ctx.do_get_accessibility_info false))
        events := [startEvent ctx "all_fields", okEvent ctx "Fetched all the fields in the DOM"]
        waited := true, accCalls := [false], fs := fs, pageAfter := some p } := by
  simp [get_dom_with_content_type, h]

/-- Evaluation of the call on the `input_fields` branch when the
accessibility routine returns the null sentinel. -/
theorem call_input_fields_none {α : Type} (ctx : AgentContext α) (fs : FS) (p : PageState)
    (h : ctx.page = some p) (ha : ctx.do_get_accessibility_info true = Option.none) :
    get_dom_with_content_type ctx fs "input_fields" =
      { result := Except.ok (ToolResult.str advisoryMsg)
        events := [startEvent ctx "input_fields"], waited := true, accCalls := [true]
        fs := fs, pageAfter := some p } := by
  simp [get_dom_with_content_type, h, ha]

/-- Evaluation of the call on the `text_only` branch when the debug-log
write succeeds. -/
theorem call_text_only_ok {α : Type} (ctx : AgentContext α) (fs : FS) (p : PageState)
    (h : ctx.page = some p) (hw : fs.nextWrite = WriteBehavior.succeeds) :
    get_dom_with_content_type ctx fs "text_only" =
      { result := Except.ok (ToolResult.str (get_filtered_text_content p).2)
        events := [startEvent ctx "text_only", okEvent ctx "Fetched the text content of the DOM"]
        waited := true, accCalls := []
        fs := { fs with files := setFile fs.files (pathJoin ctx.logs "text_only_dom.txt") (get_filtered_text_content p).2 }
        pageAfter := some (get_filtered_text_content p).1 } := by
  simp [get_dom_with_content_type, h, hw]

/-- Evaluation of the call on the `text_only` branch when `open` of the
debug-log file raises: the files are never touched. -/
theorem call_text_only_open_raises {α : Type} (ctx : AgentContext α) (fs : FS) (p : PageState)
    (h : ctx.page = some p) (hw : fs.nextWrite = WriteBehavior.openRaises) :
    get_dom_with_content_type ctx fs "text_only" =
      { result := Except.error ToolError.logWriteFailure
        events := [startEvent ctx "text_only"], waited := true, accCalls := []
        fs := fs, pageAfter := some (get_filtered_text_content p).1 } := by
  simp [get_dom_with_content_type, h, hw]

/-- Evaluation of the call on the `text_only` branch when `f.write` of
the debug-log file raises after `open` has truncated it: the file is
left holding only the flushed part. -/
theorem call_text_only_write_raises {α : Type} (ctx : AgentContext α) (fs : FS) (p : PageState)
    (flushed : String) (h : ctx.page = some p)
    (hw : fs.nextWrite = WriteBehavior.writeRaises flushed) :
    get_dom_with_content_type ctx fs "text_only" =
      { result := Except.error ToolError.logWriteFailure
        events := [startEvent ctx "text_only"], waited := true, accCalls := []
        fs := { fs with files := setFile fs.files (pathJoin ctx.logs "text_only_dom.txt") flushed }
        pageAfter := some (get_filtered_text_content p).1 } := by
  simp [get_dom_with_content_type, h, hw]

/-- Evaluation of the call on an unrecognized content type. -/
theorem call_unsupported {α : Type} (ctx : AgentContext α) (fs : FS) (p : PageState)
    (ct : String) (h : ctx.page = some p)
    (h1 : ct ≠ "all_fields") (h2 : ct ≠ "input_fields") (h3 : ct ≠ "text_only") :
    get_dom_with_content_type ctx fs ct =
      { result := Except.error (ToolError.unsupportedContentType ct)
        events := [startEvent ctx ct], waited := true, accCalls := []
        fs := fs, pageAfter := some p } := by
  simp [get_dom_with_content_type, h, h1, h2, h3]

/-! ### Claims -/

/-- C1, counterexample: a call with no active page does fail with the
`NoActivePage` error, but the event bus is not left empty — the
`ACT_START` event was already emitted before the page check, so the
claim "no event is emitted" is false. -/
theorem C1_counterexample :
    (get_dom_with_content_type noPageCtx fs0 "text_only").result
        = Except.error ToolError.noActivePage ∧
    (get_dom_with_content_type noPageCtx fs0 "text_only").events ≠ [] := by
  refine ⟨rfl, ?_⟩
  decide

/-- C1, amended: for each of the three content types, a call whose
context has no active page fails with the `NoActivePage` error, the
readiness wait never runs, the file system is untouched, and the only
event on the bus is the `ACT_START` event emitted before the page
check — in particular no completion (`ACT_OK`) event is emitted. -/
theorem C1_no_active_page {α : Type} (ctx : AgentContext α) (fs : FS) (ct : String)
    (h : ctx.page = Option.none)
    (_hct : ct = "text_only" ∨ ct = "input_fields" ∨ ct = "all_fields") :
    (get_dom_with_content_type ctx fs ct).result = Except.error ToolError.noActivePage ∧
    (get_dom_with_content_type ctx fs ct).events = [startEvent ctx ct] ∧
    (get_dom_with_content_type ctx fs ct).waited = false ∧
    (get_dom_with_content_type ctx fs ct).accCalls = [] ∧
    (get_dom_with_content_type ctx fs ct).fs = fs := by
  rw [call_no_page ctx fs ct h]
  exact ⟨rfl, rfl, rfl, rfl, rfl⟩

/-- C1, witness: the amended statement at a concrete context. -/
theorem C1_no_active_page_witness :
    (noPageCtx.page = Option.none ∧ "input_fields" = "input_fields") ∧
    ((get_dom_with_content_type noPageCtx fs0 "input_fields").result
        = Except.error ToolError.noActivePage ∧
    (get_dom_with_content_type noPageCtx fs0 "input_fields").events
        = [startEvent noPageCtx "input_fields"] ∧
    (get_dom_with_content_type noPageCtx fs0 "input_fields").waited = false ∧
    (get_dom_with_content_type noPageCtx fs0 "input_fields").accCalls = [] ∧
    (get_dom_with_content_type noPageCtx fs0 "input_fields").fs = fs0) :=
  ⟨⟨rfl, rfl⟩, C1_no_active_page noPageCtx fs0 "input_fields" rfl (Or.inr (Or.inl rfl))⟩

/-- C2, counterexample: on an unrecognized content type the call does
fail with `UnsupportedContentType`, but the readiness gate
(`wait_for_non_loading_dom_state`) has already been invoked — the
dispatch happens after the wait, so "fails before the Readiness Gate is
invoked" is false. -/
theorem C2_counterexample :
    (get_dom_with_content_type sampleCtx fs0 "bogus").result
        = Except.error (ToolError.unsupportedContentType "bogus") ∧
    (get_dom_with_content_type sampleCtx fs0 "bogus").waited = true := by
  exact ⟨rfl, rfl⟩

/-- C2, amended: on an unrecognized content type the call fails with
`UnsupportedContentType` after the readiness wait has run, but before
any extraction side effect: the accessibility routine is never called,
the file system is untouched, the page is unchanged, and no completion
(`ACT_OK`) event is emitted. -/
theorem C2_unsupported_after_wait {α : Type} (ctx : AgentContext α) (fs : FS)
    (p : PageState) (ct : String) (h : ctx.page = some p)
    (h1 : ct ≠ "all_fields") (h2 : ct ≠ "input_fields") (h3 : ct ≠ "text_only") :
    (get_dom_with_content_type ctx fs ct).result
        = Except.error (ToolError.unsupportedContentType ct) ∧
    (get_dom_with_content_type ctx fs ct).waited = true ∧
    (get_dom_with_content_type ctx fs ct).accCalls = [] ∧
    (get_dom_with_content_type ctx fs ct).fs = fs ∧
    (get_dom_with_content_type ctx fs ct).pageAfter = some p ∧
    (get_dom_with_content_type ctx fs ct).events = [startEvent ctx ct] := by
  rw [call_unsupported ctx fs p ct h h1 h2 h3]
  exact ⟨rfl, rfl, rfl, rfl, rfl, rfl⟩

/-- C2, witness: the amended statement at a concrete context and the
concrete unrecognized content type `"bogus"`. -/
theorem C2_unsupported_after_wait_witness :
    (sampleCtx.page = some samplePage ∧ "bogus" ≠ "all_fields"
      ∧ "bogus" ≠ "input_fields" ∧ "bogus" ≠ "text_only") ∧
    ((get_dom_with_content_type sampleCtx fs0 "bogus").result
        = Except.error (ToolError.unsupportedContentType "bogus") ∧
    (get_dom_with_content_type sampleCtx fs0 "bogus").waited = true ∧
    (get_dom_with_content_type sampleCtx fs0 "bogus").accCalls = [] ∧
    (get_dom_with_content_type sampleCtx fs0 "bogus").fs = fs0 ∧
    (get_dom_with_content_type sampleCtx fs0 "bogus").pageAfter = some samplePage ∧
    (get_dom_with_content_type sampleCtx fs0 "bogus").events
        = [startEvent sampleCtx "bogus"]) :=
  ⟨⟨rfl, by decide, by decide, by decide⟩,
    C2_unsupported_after_wait sampleCtx fs0 samplePage "bogus" rfl
      (by decide) (by decide) (by decide)⟩

/-- C3, counterexample: with `input_fields` and an accessibility
routine returning the null sentinel, the call does return the advisory
string, but no success-completion event is emitted — the advisory is
returned early, before the `ACT_OK` emission, so the only event on the
bus is the `ACT_START`. -/
theorem C3_counterexample :
    (get_dom_with_content_type sampleCtx fs0 "input_fields").result
        = Except.ok (ToolResult.str advisoryMsg) ∧
    (get_dom_with_content_type sampleCtx fs0 "input_fields").events.map Event.state
        = [ExecutionState.ACT_START] ∧
    ExecutionState.ACT_OK ∉
      (get_dom_with_content_type sampleCtx fs0 "input_fields").events.map Event.state := by
  refine ⟨rfl, rfl, ?_⟩
  decide

/-- C3, amended: with `input_fields` and zero input-capable elements
(the accessibility routine returns the null sentinel), the call returns
the advisory string instead of an error, but does not emit the
`ACT_OK` completion event: the early return leaves only the
`ACT_START` event on the bus. -/
theorem C3_input_fields_empty_advisory {α : Type} (ctx : AgentContext α) (fs : FS)
    (p : PageState) (h : ctx.page = some p)
    (ha : ctx.do_get_accessibility_info true = Option.none) :
    (get_dom_with_content_type ctx fs "input_fields").result
        = Except.ok (ToolResult.str advisoryMsg) ∧
    (get_dom_with_content_type ctx fs "input_fields").events = [startEvent ctx "input_fields"] ∧
    (get_dom_with_content_type ctx fs "input_fields").accCalls = [true] ∧
    (get_dom_with_content_type ctx fs "input_fields").fs = fs := by
  rw [call_input_fields_none ctx fs p h ha]
  exact ⟨rfl, rfl, rfl, rfl⟩

/-- C3, witness: the amended statement at a concrete context whose
accessibility routine returns the null sentinel. -/
theorem C3_input_fields_empty_advisory_witness :
    (sampleCtx.page = some samplePage
      ∧ sampleCtx.do_get_accessibility_info true = Option.none) ∧
    ((get_dom_with_content_type sampleCtx fs0 "input_fields").result
        = Except.ok (ToolResult.str advisoryMsg) ∧
    (get_dom_with_content_type sampleCtx fs0 "input_fields").events
        = [startEvent sampleCtx "input_fields"] ∧
    (get_dom_with_content_type sampleCtx fs0 "input_fields").accCalls = [true] ∧
    (get_dom_with_content_type sampleCtx fs0 "input_fields").fs = fs0) :=
  ⟨⟨rfl, rfl⟩, C3_input_fields_empty_advisory sampleCtx fs0 samplePage rfl rfl⟩

/-- C4, counterexample: when the debug-log write fails partway on a
`text_only` call, the call's result is the propagated write error, not
the extraction string — there is no try/except around the write, so
the failure is an error of the call (and `ACT_OK` is never emitted) —
and the failure is not observable "only via logging": `open(..., 'w')`
has already truncated the previously stored `text_only_dom.txt` from
`"old content"` down to the flushed part (here empty). -/
theorem C4_counterexample :
    (get_dom_with_content_type sampleCtx fsFail "text_only").result
        = Except.error ToolError.logWriteFailure ∧
    (get_dom_with_content_type sampleCtx fsFail "text_only").events.map Event.state
        = [ExecutionState.ACT_START] ∧
    getFile fsFail.files (pathJoin "logs" "text_only_dom.txt") = some "old content" ∧
    getFile (get_dom_with_content_type sampleCtx fsFail "text_only").fs.files
        (pathJoin "logs" "text_only_dom.txt") = some "" := by
  exact ⟨rfl, rfl, rfl, rfl⟩

/-- C4, amended: on a `text_only` call whose debug-log write fails, the
failure propagates as an error of the call: no extraction result is
returned and no completion (`ACT_OK`) event is emitted.  The file
system may be affected: if `open` itself raises the files are
untouched, but if `f.write` raises after `open` has truncated the
file, `text_only_dom.txt` is left holding only the flushed part
(`filesAfterWrite` characterizes the resulting files for each
behaviour). -/
theorem C4_write_failure_propagates {α : Type} (ctx : AgentContext α) (fs : FS)
    (p : PageState) (h : ctx.page = some p)
    (hw : fs.nextWrite ≠ WriteBehavior.succeeds) :
    (get_dom_with_content_type ctx fs "text_only").result
        = Except.error ToolError.logWriteFailure ∧
    (get_dom_with_content_type ctx fs "text_only").events = [startEvent ctx "text_only"] ∧
    (get_dom_with_content_type ctx fs "text_only").fs.files
        = filesAfterWrite fs.files (pathJoin ctx.logs "text_only_dom.txt")
            (get_filtered_text_content p).2 fs.nextWrite := by
  cases hb : fs.nextWrite with
  | succeeds => exact absurd hb hw
  | openRaises =>
    rw [call_text_only_open_raises ctx fs p h hb]
    exact ⟨rfl, rfl, rfl⟩
  | writeRaises flushed =>
    rw [call_text_only_write_raises ctx fs p flushed h hb]
    exact ⟨rfl, rfl, rfl⟩

/-- C4, witness: the amended statement at a concrete context with a
file system whose write raises after truncation. -/
theorem C4_write_failure_propagates_witness :
    (sampleCtx.page = some samplePage ∧ fsFail.nextWrite ≠ WriteBehavior.succeeds) ∧
    ((get_dom_with_content_type sampleCtx fsFail "text_only").result
        = Except.error ToolError.logWriteFailure ∧
    (get_dom_with_content_type sampleCtx fsFail "text_only").events
        = [startEvent sampleCtx "text_only"] ∧
    (get_dom_with_content_type sampleCtx fsFail "text_only").fs.files
        = filesAfterWrite fsFail.files (pathJoin sampleCtx.logs "text_only_dom.txt")
            (get_filtered_text_content samplePage).2 fsFail.nextWrite) :=
  ⟨⟨rfl, by decide⟩, C4_write_failure_propagates sampleCtx fsFail samplePage rfl (by decide)⟩

/-- C5: a `text_only` call on a page with body text `"Hello"` and
exactly one image with alt `"Logo"` returns the string
`"Hello Other Alt Texts in the page: Logo"` and writes exactly that
string to `text_only_dom.txt` in the run's log directory. -/
theorem C5_text_only_hello_logo {α : Type} (ctx : AgentContext α) (fs : FS)
    (p : PageState) (h : ctx.page = some p) (hb : p.bodyInnerText = some "Hello")
    (hi : p.imageAlts = ["Logo"]) (hw : fs.nextWrite = WriteBehavior.succeeds) :
    (get_dom_with_content_type ctx fs "text_only").result
        = Except.ok (ToolResult.str "Hello Other Alt Texts in the page: Logo") ∧
    getFile (get_dom_with_content_type ctx fs "text_only").fs.files
        (pathJoin ctx.logs "text_only_dom.txt")
        = some "Hello Other Alt Texts in the page: Logo" := by
  have hsnd : (get_filtered_text_content p).2 = "Hello Other Alt Texts in the page: Logo" := by
    simp [get_filtered_text_content, hb, hi, jsFalsyOrElse, altTextsLabel]
    rfl
  rw [call_text_only_ok ctx fs p h hw, hsnd]
  exact ⟨rfl, getFile_setFile _ _ _⟩

/-- C5, witness: the statement at a concrete context on `samplePage`. -/
theorem C5_text_only_hello_logo_witness :
    (sampleCtx.page = some samplePage ∧ samplePage.bodyInnerText = some "Hello"
      ∧ samplePage.imageAlts = ["Logo"] ∧ fs0.nextWrite = WriteBehavior.succeeds) ∧
    ((get_dom_with_content_type sampleCtx fs0 "text_only").result
        = Except.ok (ToolResult.str "Hello Other Alt Texts in the page: Logo") ∧
    getFile (get_dom_with_content_type sampleCtx fs0 "text_only").fs.files
        (pathJoin sampleCtx.logs "text_only_dom.txt")
        = some "Hello Other Alt Texts in the page: Logo") :=
  ⟨⟨rfl, rfl, rfl, rfl⟩,
    C5_text_only_hello_logo sampleCtx fs0 samplePage rfl rfl rfl rfl⟩

/-- C6: on a `text_only` call, every element temporarily hidden by the
overlay filter has its `style.visibility` restored to its pre-call
value after the call completes, on both execution paths of the call
(debug-log write succeeding or failing); the evaluated script itself
contains no failing operation between the hide and the restore, so no
execution of it skips the restore. -/
theorem C6_overlay_visibility_restored (α : Type) :
    (∀ p : PageState,
        ((get_filtered_text_content p).1).overlayVisibilities = p.overlayVisibilities) ∧
    (∀ (ctx : AgentContext α) (fs : FS) (p : PageState), ctx.page = some p →
        (get_dom_with_content_type ctx fs "text_only").pageAfter = some p) := by
  constructor
  · intro p
    rw [get_filtered_text_content_fst]
  · intro ctx fs p h
    cases hw : fs.nextWrite with
    | succeeds =>
      rw [call_text_only_ok ctx fs p h hw]
      simp [get_filtered_text_content_fst]
    | openRaises =>
      rw [call_text_only_open_raises ctx fs p h hw]
      simp [get_filtered_text_content_fst]
    | writeRaises flushed =>
      rw [call_text_only_write_raises ctx fs p flushed h hw]
      simp [get_filtered_text_content_fst]

/-- C6, witness: the statement at the concrete page `samplePage`, whose
overlay element is visible before the call. -/
theorem C6_overlay_visibility_restored_witness :
    (sampleCtx.page = some samplePage) ∧
    ((get_filtered_text_content samplePage).1).overlayVisibilities
        = samplePage.overlayVisibilities ∧
    (get_dom_with_content_type sampleCtx fs0 "text_only").pageAfter = some samplePage :=
  ⟨rfl, (C6_overlay_visibility_restored Nat).1 samplePage,
    (C6_overlay_visibility_restored Nat).2 sampleCtx fs0 samplePage rfl⟩

/-- C7: an `all_fields` call delegates to the external accessibility
routine exactly once, with `only_input_fields = false`, and returns the
routine's output unmodified (a structured object as the object, the
null sentinel as `None`). -/
theorem C7_all_fields_delegates {α : Type} (ctx : AgentContext α) (fs : FS)
    (p : PageState) (h : ctx.page = some p) :
    (get_dom_with_content_type ctx fs "all_fields").accCalls = [false] ∧
    (get_dom_with_content_type ctx fs "all_fields").result
        = Except.ok (optionToResult (ctx.do_get_accessibility_info false)) := by
  rw [call_all_fields ctx fs p h]
  exact ⟨rfl, rfl⟩

/-- C7, witness: the statement at a concrete context whose routine
returns the structured object `42`. -/
theorem C7_all_fields_delegates_witness :
    (sampleCtxSome.page = some samplePage) ∧
    ((get_dom_with_content_type sampleCtxSome fs0 "all_fields").accCalls = [false] ∧
    (get_dom_with_content_type sampleCtxSome fs0 "all_fields").result
        = Except.ok (optionToResult (sampleCtxSome.do_get_accessibility_info false))) :=
  ⟨rfl, C7_all_fields_delegates sampleCtxSome fs0 samplePage rfl⟩

/-- One `text_only` round leaves the context unchanged (the page is
restored) and overwrites `text_only_dom.txt` in the file system. -/
theorem textOnlyChainStep_eq {α : Type} (ctx : AgentContext α) (fs : FS) (p : PageState)
    (h : ctx.page = some p) (hw : fs.nextWrite = WriteBehavior.succeeds) :
    textOnlyChainStep (ctx, fs) =
      (ctx, { fs with files := setFile fs.files (pathJoin ctx.logs "text_only_dom.txt")
                                  (get_filtered_text_content p).2 }) := by
  unfold textOnlyChainStep
  rw [call_text_only_ok ctx fs p h hw]
  simp only [get_filtered_text_content_fst]
  rw [← h]

/-- C8: idempotence of repeated `text_only` calls.  Starting from a
context with an active page and a working file system and chaining the
call `n + 1` times (each round feeding the resulting page state and
file system into the next), the state after `n + 1` rounds equals the
state after one round — the same log file is overwritten, nothing
accumulates — and the result of the call at any round equals the
result of the first call. -/
theorem C8_text_only_idempotent {α : Type} (ctx : AgentContext α) (fs : FS)
    (p : PageState) (n : Nat) (h : ctx.page = some p) (hw : fs.nextWrite = WriteBehavior.succeeds) :
    textOnlyChainStep^[n + 1] (ctx, fs) = textOnlyChainStep (ctx, fs) ∧
    (get_dom_with_content_type (textOnlyChainStep^[n] (ctx, fs)).1
        (textOnlyChainStep^[n] (ctx, fs)).2 "text_only").result
      = (get_dom_with_content_type ctx fs "text_only").result ∧
    getFile ((textOnlyChainStep^[n + 1] (ctx, fs)).2).files
        (pathJoin ctx.logs "text_only_dom.txt")
      = some (get_filtered_text_content p).2 := by
  have hstep := textOnlyChainStep_eq ctx fs p h hw
  have hw2 : ({ fs with files := setFile fs.files (pathJoin ctx.logs "text_only_dom.txt") (get_filtered_text_content p).2 } : FS).nextWrite = WriteBehavior.succeeds := hw
  have hstep2 := textOnlyChainStep_eq ctx _ p h hw2
  have hfix : textOnlyChainStep (textOnlyChainStep (ctx, fs)) = textOnlyChainStep (ctx, fs) := by
    rw [hstep, hstep2]
    simp [setFile_idem]
  have hiter : ∀ m : Nat, textOnlyChainStep^[m + 1] (ctx, fs) = textOnlyChainStep (ctx, fs) := by
    intro m
    induction m with
    | zero => simp
    | succ k ih => rw [Function.iterate_succ_apply', ih, hfix]
  refine ⟨hiter n, ?_, ?_⟩
  · cases n with
    | zero => rfl
    | succ k =>
      rw [hiter k, hstep]
      rw [call_text_only_ok ctx _ p h hw2, call_text_only_ok ctx fs p h hw]
  · rw [hiter n, hstep]
    exact getFile_setFile _ _ _

/-- C8, witness: the statement at a concrete context, with two extra
rounds. -/
theorem C8_text_only_idempotent_witness :
    (sampleCtx.page = some samplePage ∧ fs0.nextWrite = WriteBehavior.succeeds) ∧
    (textOnlyChainStep^[2 + 1] (sampleCtx, fs0) = textOnlyChainStep (sampleCtx, fs0) ∧
    (get_dom_with_content_type (textOnlyChainStep^[2] (sampleCtx, fs0)).1
        (textOnlyChainStep^[2] (sampleCtx, fs0)).2 "text_only").result
      = (get_dom_with_content_type sampleCtx fs0 "text_only").result ∧
    getFile ((textOnlyChainStep^[2 + 1] (sampleCtx, fs0)).2).files
        (pathJoin sampleCtx.logs "text_only_dom.txt")
      = some (get_filtered_text_content samplePage).2) :=
  ⟨⟨rfl, rfl⟩, C8_text_only_idempotent sampleCtx fs0 samplePage 2 rfl rfl⟩

/-- C9: an `all_fields` call whose accessibility routine returns the
null sentinel returns `None` to the caller — the null-to-advisory
translation does not apply — and still emits the `ACT_OK` completion
event after the `ACT_START`. -/
theorem C9_all_fields_none_passthrough {α : Type} (ctx : AgentContext α) (fs : FS)
    (p : PageState) (h : ctx.page = some p)
    (ha : ctx.do_get_accessibility_info false = Option.none) :
    (get_dom_with_content_type ctx fs "all_fields").result = Except.ok ToolResult.none ∧
    (get_dom_with_content_type ctx fs "all_fields").events.map Event.state
        = [ExecutionState.ACT_START, ExecutionState.ACT_OK] := by
  rw [call_all_fields ctx fs p h, ha]
  exact ⟨rfl, rfl⟩

/-- C9, witness: the statement at a concrete context whose routine
returns the null sentinel. -/
theorem C9_all_fields_none_passthrough_witness :
    (sampleCtx.page = some samplePage
      ∧ sampleCtx.do_get_accessibility_info false = Option.none) ∧
    ((get_dom_with_content_type sampleCtx fs0 "all_fields").result
        = Except.ok ToolResult.none ∧
    (get_dom_with_content_type sampleCtx fs0 "all_fields").events.map Event.state
        = [ExecutionState.ACT_START, ExecutionState.ACT_OK]) :=
  ⟨⟨rfl, rfl⟩, C9_all_fields_none_passthrough sampleCtx fs0 samplePage rfl rfl⟩

/-- C10: the string produced by the `text_only` extraction always
contains the fixed label (the result splits around `altTextsLabel`),
the string a successful `text_only` call returns does too, and on a
page with no body text, no root-element text and no images the result
is exactly `" Other Alt Texts in the page: "` — never the empty
string. -/
theorem C10_label_always_present (α : Type) :
    (∀ p : PageState, ∃ a b : String,
        (get_filtered_text_content p).2 = a ++ (altTextsLabel ++ b)) ∧
    (∀ (ctx : AgentContext α) (fs : FS) (p : PageState), ctx.page = some p →
        fs.nextWrite = WriteBehavior.succeeds → ∃ a b : String,
        (get_dom_with_content_type ctx fs "text_only").result
          = Except.ok (ToolResult.str (a ++ (altTextsLabel ++ b)))) ∧
    (∀ p : PageState,
        (p.bodyInnerText = Option.none ∨ p.bodyInnerText = some "") →
        (p.documentElementInnerText = Option.none ∨ p.documentElementInnerText = some "") →
        p.imageAlts = [] →
        (get_filtered_text_content p).2 = " Other Alt Texts in the page: " ∧
        (get_filtered_text_content p).2 ≠ "") := by
  refine ⟨?_, ?_, ?_⟩
  · intro p
    exact ⟨jsFalsyOrElse p.bodyInnerText (jsFalsyOrElse p.documentElementInnerText "") ++ " ",
      String.intercalate " " p.imageAlts, rfl⟩
  · intro ctx fs p h hw
    rw [call_text_only_ok ctx fs p h hw]
    exact ⟨jsFalsyOrElse p.bodyInnerText (jsFalsyOrElse p.documentElementInnerText "") ++ " ",
      String.intercalate " " p.imageAlts, rfl⟩
  · intro p h1 h2 h3
    have hsnd : (get_filtered_text_content p).2 = " Other Alt Texts in the page: " := by
      rcases h1 with h1 | h1 <;> rcases h2 with h2 | h2 <;>
        simp [get_filtered_text_content, jsFalsyOrElse, altTextsLabel, h1, h2, h3] <;> rfl
    rw [hsnd]
    exact ⟨rfl, by decide⟩

/-- C10, witness: the statement at `samplePage`, at a concrete call on
`emptyPageCtx`, and at the concrete empty page. -/
theorem C10_label_always_present_witness :
    (emptyPageCtx.page = some emptyPage ∧ fs0.nextWrite = WriteBehavior.succeeds
      ∧ emptyPage.bodyInnerText = Option.none
      ∧ emptyPage.documentElementInnerText = Option.none
      ∧ emptyPage.imageAlts = []) ∧
    (∃ a b : String, (get_filtered_text_content samplePage).2 = a ++ (altTextsLabel ++ b)) ∧
    (∃ a b : String, (get_dom_with_content_type emptyPageCtx fs0 "text_only").result
        = Except.ok (ToolResult.str (a ++ (altTextsLabel ++ b)))) ∧
    ((get_filtered_text_content emptyPage).2 = " Other Alt Texts in the page: " ∧
      (get_filtered_text_content emptyPage).2 ≠ "") :=
  ⟨⟨rfl, rfl, rfl, rfl, rfl⟩,
    (C10_label_always_present Nat).1 samplePage,
    (C10_label_always_present Nat).2.1 emptyPageCtx fs0 emptyPage rfl rfl,
    (C10_label_always_present Nat).2.2 emptyPage (Or.inl rfl) (Or.inl rfl) rfl⟩

end Nanobrowser
